import Mathlib

/-!
# xmrigCC `Cpu.cpp`: cache model, parameter optimizer and topology probe

A shallow embedding of `src/Cpu.cpp`.  `size_t` is the unsigned 64-bit word of the
x86-64 targets the miner is built for: values are natural numbers and every
addition or multiplication that the source performs in `size_t` is reduced
modulo `2 ^ 64`.  An integer division whose divisor is zero is undefined in
C++ (a trap on x86-64); such a division is modelled as a fault, and the
functions that divide return `Except DivSite _`.
-/

namespace XmrigCC

/-! ## Machine integers -/

/-- Conversion of a signed `int` to `size_t` (C++ integral conversion, modulo `2 ^ 64`). -/
def toSizeT (i : Int) : Nat := (i % 18446744073709551616).toNat

/-- The three places where `optimizeParameters` divides, and the one of `initCommon`. -/
inductive DivSite where
  /-- Line 87/88: `maximumReasonableFactor / threadsCount` inside `if (safeMode)`. -/
  | safeModeClamp
  /-- Line 99: `maximumReasonableFactor / hashFactor` in the auto-thread step. -/
  | autoThreads
  /-- Line 108: `maximumReasonableFactor / threadsCount` in the auto-hash-factor step. -/
  | autoHashFactor
  /-- Line 146: `m_totalThreads / data.num_logical_cpus` in `initCommon`. -/
  | socketCount
  deriving DecidableEq, Repr

deriving instance DecidableEq for Except

/-- Unsigned division as the hardware performs it: a zero divisor faults at `site`. -/
def udiv (site : DivSite) (a b : Nat) : Except DivSite Nat :=
  if b = 0 then Except.error site else Except.ok (a / b)

/-! ## Data model -/

/-- The algorithm selector `Options::Algo` as far as `optimizeParameters` reads it. -/
inductive Algo where
  | ALGO_CRYPTONIGHT
  | ALGO_CRYPTONIGHT_LITE
  deriving DecidableEq, Repr

/-- The `switch (algo)` of lines 69-77. -/
def algoBlockSize : Algo → Nat
  | Algo.ALGO_CRYPTONIGHT_LITE => 1024
  | Algo.ALGO_CRYPTONIGHT => 2048

/-- The members of `CpuImpl` that the cache model, the optimizer and the probe use
(`m_brand` and `m_flags` play no part in them).  The counters and the cache sizes are
`size_t` words, the type `optimizeParameters` mixes them with in `std::min`. -/
structure CpuImpl where
  m_l2_exclusive : Bool
  m_l2_cache : Nat
  m_l3_cache : Nat
  m_sockets : Nat
  m_totalCores : Nat
  m_totalThreads : Nat
  deriving DecidableEq, Repr

/-- The constructor `CpuImpl::CpuImpl()` (lines 43-53). -/
def CpuImpl.fresh : CpuImpl :=
  { m_l2_exclusive := false, m_l2_cache := 0, m_l3_cache := 0,
    m_sockets := 1, m_totalCores := 0, m_totalThreads := 0 }

/-- The vendors libcpuid reports in `cpu_id_t::vendor`. -/
inductive cpu_vendor_t where
  | VENDOR_INTEL
  | VENDOR_AMD
  | VENDOR_CYRIX
  | VENDOR_NEXGEN
  | VENDOR_TRANSMETA
  | VENDOR_UMC
  | VENDOR_CENTAUR
  | VENDOR_RISE
  | VENDOR_SIS
  | VENDOR_NSC
  | VENDOR_UNKNOWN
  deriving DecidableEq, Repr

/-- The fields of libcpuid's `cpu_id_t` that `initCommon` reads; they are signed
32-bit integers in the library. -/
structure cpu_id_t where
  vendor : cpu_vendor_t
  ext_family : Int
  num_cores : Int
  num_logical_cpus : Int
  total_logical_cpus : Int
  l2_cache : Int
  l3_cache : Int
  deriving DecidableEq, Repr

/-! ## `CpuImpl::availableCache` (lines 123-133) -/

/-- The usable cache: L3 alone, L2 + L3 when the levels are exclusive, L2 when there is no L3. -/
def CpuImpl.availableCache (c : CpuImpl) : Nat :=
  if c.m_l3_cache ≠ 0 then
    (if c.m_l2_exclusive then (c.m_l2_cache + c.m_l3_cache) % 18446744073709551616
     else c.m_l3_cache)
  else
    c.m_l2_cache

/-! ## `CpuImpl::optimizeParameters` (lines 55-111) -/

/-- Lines 83-91, the `if (safeMode)` block.  `F`, `maxT`, `maxH` are
`maximumReasonableFactor`, `maximumReasonableThreadCount`, `maximumReasonableHashFactor`. -/
def safeModeClamp (F maxT maxH : Nat) (safeMode : Bool) (threadsCount hashFactor : Nat) :
    Except DivSite (Nat × Nat) :=
  if safeMode then
    let threadsCount := if threadsCount > maxT then maxT else threadsCount
    match udiv DivSite.safeModeClamp F threadsCount with
    | Except.error e => Except.error e
    | Except.ok q =>
      if hashFactor > q then Except.ok (threadsCount, max (min q maxH) 1)
      else Except.ok (threadsCount, hashFactor)
  else
    Except.ok (threadsCount, hashFactor)

/-- Lines 93-106, the `if (threadsCount == 0)` block; `total` is `m_totalThreads`. -/
def autoThreads (F maxT total : Nat) (maxCpuUsage : Int) (threadsCount hashFactor : Nat) :
    Except DivSite Nat :=
  if threadsCount = 0 then
    match (if hashFactor = 0 then Except.ok maxT
           else
             match udiv DivSite.autoThreads F hashFactor with
             | Except.error e => Except.error e
             | Except.ok q => Except.ok (min maxT q)) with
    | Except.error e => Except.error e
    | Except.ok t =>
      let t := if maxCpuUsage < 100 then
                 min t ((total * toSizeT maxCpuUsage) % 18446744073709551616 / 100)
               else t
      Except.ok (max t 1)
  else
    Except.ok threadsCount

/-- Lines 107-110, the `if (hashFactor == 0)` block. -/
def autoHashFactor (F maxH : Nat) (threadsCount hashFactor : Nat) : Except DivSite Nat :=
  if hashFactor = 0 then
    match udiv DivSite.autoHashFactor F threadsCount with
    | Except.error e => Except.error e
    | Except.ok q => Except.ok (max (min maxH q) 1)
  else
    Except.ok hashFactor

/-- Line 79: `std::max(cache / algoBlockSize, 1ul)` with `cache = availableCache()`. -/
def CpuImpl.maximumReasonableFactor (c : CpuImpl) (algo : Algo) : Nat :=
  max (c.availableCache / algoBlockSize algo) 1

/-- Line 80: `std::min(maximumReasonableFactor, m_totalThreads)`. -/
def CpuImpl.maximumReasonableThreadCount (c : CpuImpl) (algo : Algo) : Nat :=
  min (c.maximumReasonableFactor algo) c.m_totalThreads

/-- Line 81: `std::min(maximumReasonableFactor, MAX_NUM_HASH_BLOCKS)`. -/
def CpuImpl.maximumReasonableHashFactor (c : CpuImpl) (MAX_NUM_HASH_BLOCKS : Nat)
    (algo : Algo) : Nat :=
  min (c.maximumReasonableFactor algo) MAX_NUM_HASH_BLOCKS

/-- The routine `CpuImpl::optimizeParameters`.  `MAX_NUM_HASH_BLOCKS` is the build-time
constant of that name; the in/out references `threadsCount` and `hashFactor` are the
arguments, and their final values are returned as a pair. -/
def CpuImpl.optimizeParameters (c : CpuImpl) (MAX_NUM_HASH_BLOCKS : Nat)
    (threadsCount hashFactor : Nat) (algo : Algo) (maxCpuUsage : Int) (safeMode : Bool) :
    Except DivSite (Nat × Nat) :=
  let hashFactor := min hashFactor MAX_NUM_HASH_BLOCKS
  if safeMode = false ∧ threadsCount > 0 ∧ hashFactor > 0 then
    Except.ok (threadsCount, hashFactor)
  else
    match safeModeClamp (c.maximumReasonableFactor algo) (c.maximumReasonableThreadCount algo)
            (c.maximumReasonableHashFactor MAX_NUM_HASH_BLOCKS algo)
            safeMode threadsCount hashFactor with
    | Except.error e => Except.error e
    | Except.ok (threadsCount, hashFactor) =>
      match autoThreads (c.maximumReasonableFactor algo) (c.maximumReasonableThreadCount algo)
              c.m_totalThreads maxCpuUsage threadsCount hashFactor with
      | Except.error e => Except.error e
      | Except.ok threadsCount =>
        match autoHashFactor (c.maximumReasonableFactor algo)
                (c.maximumReasonableHashFactor MAX_NUM_HASH_BLOCKS algo)
                threadsCount hashFactor with
        | Except.error e => Except.error e
        | Except.ok hashFactor => Except.ok (threadsCount, hashFactor)

/-! ## `CpuImpl::initCommon` (lines 135-175) -/

/-- The probe, from `m_totalThreads = data.total_logical_cpus` on; `c` is the object
before the call and `data` the record `cpu_identify` filled in. -/
def CpuImpl.initCommon (c : CpuImpl) (data : cpu_id_t) : Except DivSite CpuImpl :=
  let m_totalThreads := toSizeT data.total_logical_cpus
  match udiv DivSite.socketCount m_totalThreads (toSizeT data.num_logical_cpus) with
  | Except.error e => Except.error e
  | Except.ok q =>
    let m_sockets := if q = 0 then 1 else q
    let m_totalCores := (toSizeT data.num_cores * m_sockets) % 18446744073709551616
    let m_l3_cache :=
      if data.l3_cache > 0 then (toSizeT data.l3_cache * m_sockets) % 18446744073709551616
      else 0
    if data.vendor = cpu_vendor_t.VENDOR_AMD ∧ data.ext_family ≥ 0x15 ∧ data.ext_family < 0x17 then
      Except.ok
        { c with
          m_totalThreads := m_totalThreads, m_sockets := m_sockets,
          m_totalCores := m_totalCores, m_l3_cache := m_l3_cache,
          m_l2_cache :=
            ((toSizeT data.l2_cache * (m_totalCores / 2)) % 18446744073709551616 * m_sockets)
              % 18446744073709551616,
          m_l2_exclusive := true }
    else
      Except.ok
        { c with
          m_totalThreads := m_totalThreads, m_sockets := m_sockets,
          m_totalCores := m_totalCores, m_l3_cache := m_l3_cache,
          m_l2_cache :=
            if data.l2_cache > 0 then
              ((toSizeT data.l2_cache * m_totalCores) % 18446744073709551616 * m_sockets)
                % 18446744073709551616
            else 0 }

/-! ## Concrete machines -/

/-- One socket, 8 logical threads, inclusive L3 of 8388608 units (4096 standard blocks). -/
def machineA : CpuImpl :=
  { m_l2_exclusive := false, m_l2_cache := 2048, m_l3_cache := 8388608,
    m_sockets := 1, m_totalCores := 4, m_totalThreads := 8 }

/-- One socket, 4 logical threads, inclusive L3 of 4096 units (2 standard blocks). -/
def machineB : CpuImpl :=
  { m_l2_exclusive := false, m_l2_cache := 1024, m_l3_cache := 4096,
    m_sockets := 1, m_totalCores := 4, m_totalThreads := 4 }

/-- An AMD family 15h part: 4 cores in one socket, 512 of L2 per core, 2048 of L3. -/
def scenarioD : cpu_id_t :=
  { vendor := cpu_vendor_t.VENDOR_AMD, ext_family := 0x15, num_cores := 4,
    num_logical_cpus := 4, total_logical_cpus := 4, l2_cache := 512, l3_cache := 2048 }

/-- A machine whose caches are unknown: 4 logical threads, no L2 and no L3 recorded. -/
def machineZeroCache : CpuImpl :=
  { m_l2_exclusive := false, m_l2_cache := 0, m_l3_cache := 0,
    m_sockets := 1, m_totalCores := 4, m_totalThreads := 4 }

/-- The record `struct cpu_id_t data = { 0 }` of line 138, as it is when `cpu_identify`
fills nothing in; vendor 0 is `VENDOR_INTEL`. -/
def zeroRecord : cpu_id_t :=
  { vendor := cpu_vendor_t.VENDOR_INTEL, ext_family := 0, num_cores := 0,
    num_logical_cpus := 0, total_logical_cpus := 0, l2_cache := 0, l3_cache := 0 }

/-- A record that reports one logical thread per socket and nothing else. -/
def coreLessRecord : cpu_id_t :=
  { vendor := cpu_vendor_t.VENDOR_INTEL, ext_family := 0, num_cores := 0,
    num_logical_cpus := 1, total_logical_cpus := 0, l2_cache := 0, l3_cache := 0 }

/-! ## Reference definitions in the words of the specification -/

/-- The auto-thread path as the specification words it (safe mode off, no thread count
requested): `clamped` is the requested hash factor under the ceiling, then `maxFactor`,
`maxThreads`, `maxHashFactor`, `base`, `capped`, and the result.  The quantities are the
routine's `size_t` words, so the product of the usage cap is the `size_t` product. -/
def specAutoThreadPath (availableCache blockSize totalLogicalThreads ceiling
    requestedHashFactor maxCpuUsagePercent : Nat) : Nat × Nat :=
  let clamped := min requestedHashFactor ceiling
  let maxFactor := max (availableCache / blockSize) 1
  let maxThreads := min maxFactor totalLogicalThreads
  let maxHashFactor := min maxFactor ceiling
  let base := if clamped = 0 then maxThreads else min maxThreads (maxFactor / clamped)
  let capped :=
    if maxCpuUsagePercent ≥ 100 then base
    else min base
      ((totalLogicalThreads * maxCpuUsagePercent) % 18446744073709551616 / 100)
  let threads := max capped 1
  (threads,
    if clamped > 0 then clamped else max (min maxHashFactor (maxFactor / threads)) 1)

/-- The safe-mode clamp as the specification words it (safe mode on, `requestedThreads > 0`):
threads are clamped first, and the quotient of the hash-factor clamp uses the clamped
thread count. -/
def specSafeModeClamp (availableCache blockSize totalLogicalThreads ceiling
    requestedThreads requestedHashFactor : Nat) : Nat × Nat :=
  let clamped := min requestedHashFactor ceiling
  let maxFactor := max (availableCache / blockSize) 1
  let maxThreads := min maxFactor totalLogicalThreads
  let maxHashFactor := min maxFactor ceiling
  let threads := min requestedThreads maxThreads
  (threads,
    if clamped = 0 ∨ clamped > maxFactor / threads then
      max (min (maxFactor / threads) maxHashFactor) 1
    else clamped)

/-! ## Block lemmas -/

theorem toSizeT_of_percent (p : Int) (h1 : 1 ≤ p) (h2 : p ≤ 100) : toSizeT p = p.toNat := by
  unfold toSizeT
  omega

theorem safeModeClamp_off (F maxT maxH T H : Nat) :
    safeModeClamp F maxT maxH false T H = Except.ok (T, H) := by
  simp [safeModeClamp]

theorem safeModeClamp_zero (F maxT maxH H : Nat) :
    safeModeClamp F maxT maxH true 0 H = Except.error DivSite.safeModeClamp := by
  simp [safeModeClamp, udiv]

theorem safeModeClamp_on (F maxT maxH T H : Nat) (hT : 0 < T) (hmax : 0 < maxT) :
    safeModeClamp F maxT maxH true T H =
      Except.ok (min T maxT,
        if H > F / min T maxT then max (min (F / min T maxT) maxH) 1 else H) := by
  have e : (if T > maxT then maxT else T) = min T maxT := by
    split <;> omega
  have hne : min T maxT ≠ 0 := by omega
  simp only [safeModeClamp, udiv, e, if_true, if_neg hne]
  split <;> rfl

theorem autoThreads_keep (F maxT total : Nat) (p : Int) (T H : Nat) (hT : 0 < T) :
    autoThreads F maxT total p T H = Except.ok T := by
  have : T ≠ 0 := by omega
  simp [autoThreads, this]

theorem autoThreads_auto (F maxT total : Nat) (p : Int) (H : Nat) :
    autoThreads F maxT total p 0 H =
      Except.ok (max (if p < 100 then
          min (if H = 0 then maxT else min maxT (F / H))
            ((total * toSizeT p) % 18446744073709551616 / 100)
        else (if H = 0 then maxT else min maxT (F / H))) 1) := by
  by_cases hH : H = 0
  · simp [autoThreads, hH]
  · simp [autoThreads, udiv, hH]

theorem autoHashFactor_keep (F maxH t H : Nat) (hH : 0 < H) :
    autoHashFactor F maxH t H = Except.ok H := by
  have : H ≠ 0 := by omega
  simp [autoHashFactor, this]

theorem autoHashFactor_auto (F maxH t : Nat) (ht : 0 < t) :
    autoHashFactor F maxH t 0 = Except.ok (max (min maxH (F / t)) 1) := by
  have : t ≠ 0 := by omega
  simp [autoHashFactor, udiv, this]

/-! ## The four ways through `optimizeParameters` -/

theorem maximumReasonableFactor_pos (c : CpuImpl) (algo : Algo) :
    1 ≤ c.maximumReasonableFactor algo := by
  unfold CpuImpl.maximumReasonableFactor
  omega

theorem maximumReasonableThreadCount_pos (c : CpuImpl) (algo : Algo)
    (htot : 1 ≤ c.m_totalThreads) : 1 ≤ c.maximumReasonableThreadCount algo := by
  have := maximumReasonableFactor_pos c algo
  unfold CpuImpl.maximumReasonableThreadCount
  omega

/-- Manual override: safe mode off, explicit threads, clamped hash factor nonzero. -/
theorem optimizeParameters_manual (c : CpuImpl) (M T H : Nat) (algo : Algo) (p : Int)
    (hT : 0 < T) (hH : 0 < min H M) :
    c.optimizeParameters M T H algo p false = Except.ok (T, min H M) := by
  simp [CpuImpl.optimizeParameters, hT, hH]

/-- Safe mode with no thread count given: the clamp divides by `threadsCount = 0`. -/
theorem optimizeParameters_safe_autoThreads (c : CpuImpl) (M H : Nat) (algo : Algo) (p : Int) :
    c.optimizeParameters M 0 H algo p true = Except.error DivSite.safeModeClamp := by
  simp [CpuImpl.optimizeParameters, safeModeClamp_zero]

/-- Safe mode off, threads automatic. -/
theorem optimizeParameters_unsafe_autoThreads (c : CpuImpl) (M H : Nat) (algo : Algo)
    (p : Int) (t : Nat)
    (ht : t = max (if p < 100 then
          min (if min H M = 0 then c.maximumReasonableThreadCount algo
               else min (c.maximumReasonableThreadCount algo)
                      (c.maximumReasonableFactor algo / min H M))
            ((c.m_totalThreads * toSizeT p) % 18446744073709551616 / 100)
        else (if min H M = 0 then c.maximumReasonableThreadCount algo
              else min (c.maximumReasonableThreadCount algo)
                     (c.maximumReasonableFactor algo / min H M))) 1) :
    c.optimizeParameters M 0 H algo p false =
      Except.ok (t,
        if min H M = 0 then
          max (min (c.maximumReasonableHashFactor M algo) (c.maximumReasonableFactor algo / t)) 1
        else min H M) := by
  have ht1 : 0 < t := by omega
  simp only [CpuImpl.optimizeParameters, safeModeClamp_off, autoThreads_auto, ← ht]
  by_cases h0 : min H M = 0
  · simp [h0, autoHashFactor_auto _ _ _ ht1]
  · have : 0 < min H M := by omega
    simp [h0, autoHashFactor_keep _ _ _ _ this]

/-- Safe mode off, explicit threads, hash factor automatic (zero after the ceiling clamp). -/
theorem optimizeParameters_unsafe_autoHash (c : CpuImpl) (M T H : Nat) (algo : Algo) (p : Int)
    (hT : 0 < T) (hH : min H M = 0) :
    c.optimizeParameters M T H algo p false =
      Except.ok (T,
        max (min (c.maximumReasonableHashFactor M algo) (c.maximumReasonableFactor algo / T)) 1)
    := by
  simp [CpuImpl.optimizeParameters, safeModeClamp_off, autoThreads_keep _ _ _ _ _ _ hT, hH,
    autoHashFactor_auto _ _ _ hT]

/-- Safe mode on, explicit threads. -/
theorem optimizeParameters_safe_explicit (c : CpuImpl) (M T H : Nat) (algo : Algo) (p : Int)
    (htot : 1 ≤ c.m_totalThreads) (hT : 0 < T) (t : Nat)
    (ht : t = min T (c.maximumReasonableThreadCount algo)) :
    c.optimizeParameters M T H algo p true =
      Except.ok (t,
        if min H M = 0 ∨ min H M > c.maximumReasonableFactor algo / t then
          max (min (c.maximumReasonableFactor algo / t) (c.maximumReasonableHashFactor M algo)) 1
        else min H M) := by
  have hmt := maximumReasonableThreadCount_pos c algo htot
  have ht1 : 0 < t := by omega
  simp only [CpuImpl.optimizeParameters, safeModeClamp_on _ _ _ _ _ hT hmt, ← ht]
  by_cases hgt : min H M > c.maximumReasonableFactor algo / t
  · have hpos : 0 < max (min (c.maximumReasonableFactor algo / t)
        (c.maximumReasonableHashFactor M algo)) 1 := by omega
    simp [hgt, autoThreads_keep _ _ _ _ _ _ ht1, autoHashFactor_keep _ _ _ _ hpos]
  · by_cases h0 : min H M = 0
    · simp [hgt, h0, autoThreads_keep _ _ _ _ _ _ ht1, autoHashFactor_auto _ _ _ ht1,
        Nat.min_comm]
    · have hpos : 0 < min H M := by omega
      simp [hgt, h0, autoThreads_keep _ _ _ _ _ _ ht1, autoHashFactor_keep _ _ _ _ hpos]

/-! ## Consequences shared by the claims -/

/-- With at least one logical thread, the only division that can fault is the one of the
safe-mode clamp, and it faults exactly for `safeMode` with `threadsCount = 0`. -/
theorem optimizeParameters_fault_site (c : CpuImpl) (M T H : Nat) (algo : Algo) (p : Int)
    (safe : Bool) (htot : 1 ≤ c.m_totalThreads) (e : DivSite)
    (he : c.optimizeParameters M T H algo p safe = Except.error e) :
    e = DivSite.safeModeClamp ∧ safe = true ∧ T = 0 := by
  cases safe with
  | true =>
    rcases Nat.eq_zero_or_pos T with hT | hT
    · subst hT
      rw [optimizeParameters_safe_autoThreads] at he
      cases he
      exact ⟨rfl, rfl, rfl⟩
    · rw [optimizeParameters_safe_explicit c M T H algo p htot hT _ rfl] at he
      cases he
  | false =>
    rcases Nat.eq_zero_or_pos T with hT | hT
    · subst hT
      rw [optimizeParameters_unsafe_autoThreads c M H algo p _ rfl] at he
      cases he
    · rcases Nat.eq_zero_or_pos (min H M) with hH | hH
      · rw [optimizeParameters_unsafe_autoHash c M T H algo p hT hH] at he
        cases he
      · rw [optimizeParameters_manual c M T H algo p hT hH] at he
        cases he

/-- Away from safe mode with automatic threads the routine returns, and both values are
at least 1; the hash factor respects a ceiling that is at least 1. -/
theorem optimizeParameters_returns (c : CpuImpl) (M T H : Nat) (algo : Algo) (p : Int)
    (safe : Bool) (htot : 1 ≤ c.m_totalThreads) (hdom : safe = false ∨ 0 < T) :
    ∃ t h, c.optimizeParameters M T H algo p safe = Except.ok (t, h) ∧
      1 ≤ t ∧ 1 ≤ h ∧ (1 ≤ M → h ≤ M) := by
  have hF := maximumReasonableFactor_pos c algo
  have hmt := maximumReasonableThreadCount_pos c algo htot
  have hmh : c.maximumReasonableHashFactor M algo ≤ M := by
    unfold CpuImpl.maximumReasonableHashFactor
    omega
  cases safe with
  | true =>
    have hT : 0 < T := by
      rcases hdom with h | h
      · cases h
      · exact h
    refine ⟨_, _, optimizeParameters_safe_explicit c M T H algo p htot hT _ rfl, ?_, ?_, ?_⟩
    · omega
    · split_ifs <;> omega
    · intro hM
      split_ifs <;> omega
  | false =>
    rcases Nat.eq_zero_or_pos T with hT | hT
    · subst hT
      refine ⟨_, _, optimizeParameters_unsafe_autoThreads c M H algo p _ rfl, ?_, ?_, ?_⟩
      · omega
      · split_ifs <;> omega
      · intro hM
        split_ifs <;> omega
    · rcases Nat.eq_zero_or_pos (min H M) with hH | hH
      · refine ⟨_, _, optimizeParameters_unsafe_autoHash c M T H algo p hT hH, hT, ?_, ?_⟩
        · omega
        · intro hM
          omega
      · refine ⟨_, _, optimizeParameters_manual c M T H algo p hT hH, hT, hH, ?_⟩
        intro _
        omega

/-- Threads chosen automatically (safe mode off) never exceed the logical thread count. -/
theorem optimizeParameters_autoThreads_le_total (c : CpuImpl) (M H : Nat) (algo : Algo)
    (p : Int) (htot : 1 ≤ c.m_totalThreads) :
    ∃ t h, c.optimizeParameters M 0 H algo p false = Except.ok (t, h) ∧
      t ≤ c.m_totalThreads := by
  have hmt : c.maximumReasonableThreadCount algo ≤ c.m_totalThreads := by
    unfold CpuImpl.maximumReasonableThreadCount
    omega
  refine ⟨_, _, optimizeParameters_unsafe_autoThreads c M H algo p _ rfl, ?_⟩
  split_ifs <;> omega

/-- Threads clamped by safe mode never exceed the logical thread count. -/
theorem optimizeParameters_safe_le_total (c : CpuImpl) (M T H : Nat) (algo : Algo)
    (p : Int) (htot : 1 ≤ c.m_totalThreads) (hT : 0 < T) :
    ∃ t h, c.optimizeParameters M T H algo p true = Except.ok (t, h) ∧
      t ≤ c.m_totalThreads := by
  have hmt : c.maximumReasonableThreadCount algo ≤ c.m_totalThreads := by
    unfold CpuImpl.maximumReasonableThreadCount
    omega
  refine ⟨_, _, optimizeParameters_safe_explicit c M T H algo p htot hT _ rfl, ?_⟩
  omega

/-- A hash factor that is 1, or at most `F / t` blocks per thread, keeps the working set
within the cache up to one block per thread. -/
theorem budget_of_hash_le (t h F cache bs : Nat) (hF : F = max (cache / bs) 1)
    (hh : h = 1 ∨ h ≤ F / t) : t * h * bs ≤ cache + t * bs := by
  rcases hh with h1 | hle
  · subst h1
    simp
  · have h2 : t * h ≤ F :=
      le_trans (Nat.mul_le_mul_left t hle) (Nat.mul_div_le F t)
    rcases Nat.lt_or_ge (cache / bs) 1 with hc | hc
    · have hF1 : F = 1 := by omega
      rw [hF1] at h2
      rcases Nat.eq_zero_or_pos t with ht | ht
      · subst ht
        simp
      · have hh1 : h ≤ 1 := by
          by_contra hcon
          have : t * 2 ≤ t * h := Nat.mul_le_mul_left t (by omega)
          omega
        have : t * h ≤ t := by
          calc t * h ≤ t * 1 := Nat.mul_le_mul_left t hh1
            _ = t := by simp
        have := Nat.mul_le_mul_right bs this
        omega
    · have hFc : F = cache / bs := by omega
      rw [hFc] at h2
      have h3 := Nat.mul_le_mul_right bs h2
      have h4 := Nat.div_mul_le_self cache bs
      omega

/-- With no usable cache, automatic threads and hash factor and safe mode off, the result
is `(1, 1)` whatever the ceiling and the usage limit. -/
theorem optimizeParameters_zero_cache_unsafe (c : CpuImpl) (M : Nat) (algo : Algo) (p : Int)
    (hcache : c.availableCache = 0) :
    c.optimizeParameters M 0 0 algo p false = Except.ok (1, 1) := by
  have hF : c.maximumReasonableFactor algo = 1 := by
    simp [CpuImpl.maximumReasonableFactor, hcache]
  have hmt : c.maximumReasonableThreadCount algo ≤ 1 := by
    unfold CpuImpl.maximumReasonableThreadCount
    omega
  have hmh : c.maximumReasonableHashFactor M algo ≤ 1 := by
    unfold CpuImpl.maximumReasonableHashFactor
    omega
  obtain ⟨t, ht⟩ : ∃ t, t = max (if p < 100 then
      min (if min 0 M = 0 then c.maximumReasonableThreadCount algo
           else min (c.maximumReasonableThreadCount algo)
                  (c.maximumReasonableFactor algo / min 0 M))
        ((c.m_totalThreads * toSizeT p) % 18446744073709551616 / 100)
    else (if min 0 M = 0 then c.maximumReasonableThreadCount algo
          else min (c.maximumReasonableThreadCount algo)
                 (c.maximumReasonableFactor algo / min 0 M))) 1 := ⟨_, rfl⟩
  have h0 : min 0 M = 0 := by omega
  have ht1 : t = 1 := by
    rw [ht, if_pos h0]
    split_ifs <;> omega
  rw [optimizeParameters_unsafe_autoThreads c M 0 algo p t ht, if_pos h0, ht1]
  have : max (min (c.maximumReasonableHashFactor M algo) (c.maximumReasonableFactor algo / 1)) 1
      = 1 := by
    rw [Nat.div_one]
    omega
  rw [this]

theorem algoBlockSize_pos (algo : Algo) : 0 < algoBlockSize algo := by
  cases algo <;> decide

/-- Safe mode with explicit threads: the threads are the request clamped to the thread
budget, and the hash factor is at least 1 and at most `F / threads` blocks per thread. -/
theorem optimizeParameters_safe_bounds (c : CpuImpl) (M T H : Nat) (algo : Algo) (p : Int)
    (htot : 1 ≤ c.m_totalThreads) (hT : 0 < T) :
    ∃ t h, c.optimizeParameters M T H algo p true = Except.ok (t, h) ∧
      t = min T (c.maximumReasonableThreadCount algo) ∧ 1 ≤ t ∧ 1 ≤ h ∧
      h ≤ c.maximumReasonableFactor algo / t ∧ (1 ≤ M → h ≤ M) ∧
      (1 ≤ M → 0 < H → h ≤ H) := by
  have hmt := maximumReasonableThreadCount_pos c algo htot
  have hmtF : c.maximumReasonableThreadCount algo ≤ c.maximumReasonableFactor algo := by
    unfold CpuImpl.maximumReasonableThreadCount
    omega
  have hmh : c.maximumReasonableHashFactor M algo ≤ M := by
    unfold CpuImpl.maximumReasonableHashFactor
    omega
  have hmhF : 1 ≤ M → 1 ≤ c.maximumReasonableHashFactor M algo := by
    intro hM
    have := maximumReasonableFactor_pos c algo
    unfold CpuImpl.maximumReasonableHashFactor
    omega
  have hq : 1 ≤ c.maximumReasonableFactor algo / min T (c.maximumReasonableThreadCount algo) :=
    (Nat.one_le_div_iff (by omega)).mpr (by omega)
  refine ⟨_, _, optimizeParameters_safe_explicit c M T H algo p htot hT _ rfl, rfl, ?_, ?_,
    ?_, ?_, ?_⟩
  · omega
  · split_ifs <;> omega
  · split_ifs <;> omega
  · intro hM
    split_ifs <;> omega
  · intro hM hH
    have := hmhF hM
    split_ifs <;> omega

/-- The probe stores the reported total of logical threads, converted to `size_t`. -/
theorem initCommon_totalThreads (c cpu : CpuImpl) (data : cpu_id_t)
    (hres : c.initCommon data = Except.ok cpu) :
    cpu.m_totalThreads = toSizeT data.total_logical_cpus := by
  by_cases hdiv : toSizeT data.num_logical_cpus = 0
  · simp [CpuImpl.initCommon, udiv, hdiv] at hres
  · by_cases hamd : data.vendor = cpu_vendor_t.VENDOR_AMD ∧ data.ext_family ≥ 0x15 ∧
        data.ext_family < 0x17
    · simp only [CpuImpl.initCommon, udiv, if_neg hdiv, if_pos hamd] at hres
      cases hres
      rfl
    · simp only [CpuImpl.initCommon, udiv, if_neg hdiv, if_neg hamd] at hres
      cases hres
      rfl

/-- The product of the usage cap does not wrap on a topology the probe builds from a
non-negative 32-bit thread count, for any usage limit up to 100. -/
theorem initCommon_usage_product_fits (c cpu : CpuImpl) (data : cpu_id_t) (p : Nat)
    (h0 : 0 ≤ data.total_logical_cpus) (h1 : data.total_logical_cpus ≤ 2147483647)
    (hres : c.initCommon data = Except.ok cpu) (hp : p ≤ 100) :
    cpu.m_totalThreads * p < 18446744073709551616 := by
  have hT := initCommon_totalThreads c cpu data hres
  have hle : cpu.m_totalThreads ≤ 2147483647 := by
    rw [hT]
    unfold toSizeT
    omega
  calc cpu.m_totalThreads * p ≤ 2147483647 * 100 := Nat.mul_le_mul hle hp
    _ < 18446744073709551616 := by decide

/-! ## The claims -/

/-- C1 (the code falls short of it): every valid request is promised a result with
`threads ≥ 1` and `hashFactor ≥ 1`.  The valid request (threads 0, hash factor 0, 100 %,
safe mode on) on the 8-thread machine makes the safe-mode clamp divide by
`threadsCount = 0`: the routine faults and no result is produced. -/
theorem optimizeParameters_no_result_safe_auto :
    machineA.optimizeParameters 4 0 0 Algo.ALGO_CRYPTONIGHT 100 true
        = Except.error DivSite.safeModeClamp ∧
      ¬ ∃ r : Nat × Nat,
          machineA.optimizeParameters 4 0 0 Algo.ALGO_CRYPTONIGHT 100 true = Except.ok r ∧
            1 ≤ r.1 ∧ 1 ≤ r.2 := by
  have h := optimizeParameters_safe_autoThreads machineA 4 0 Algo.ALGO_CRYPTONIGHT 100
  refine ⟨h, ?_⟩
  rintro ⟨r, hr, _⟩
  rw [h] at hr
  cases hr

/-- C2 (the code falls short of it): the routine is to reach each division with a nonzero
divisor.  In safe mode with `threadsCount = 0` (automatic threads) the threads are not
clamped, the block of lines 87-88 divides `maximumReasonableFactor` by `threadsCount = 0`,
and the routine faults there, on every topology and for every hash factor, algorithm and
usage limit. -/
theorem optimizeParameters_safe_clamp_divides_by_zero (c : CpuImpl) (M H : Nat) (algo : Algo)
    (p : Int) :
    safeModeClamp (c.maximumReasonableFactor algo) (c.maximumReasonableThreadCount algo)
        (c.maximumReasonableHashFactor M algo) true 0 (min H M)
        = Except.error DivSite.safeModeClamp ∧
      c.optimizeParameters M 0 H algo p true = Except.error DivSite.safeModeClamp :=
  ⟨safeModeClamp_zero _ _ _ _, optimizeParameters_safe_autoThreads c M H algo p⟩

/-- C3: with safe mode off, `T > 0` requested threads and a requested hash factor `H > 0`,
the routine returns exactly `(T, min H ceiling)`, whatever the topology, the algorithm and
the usage limit; it returns exactly `(T, H)` when `H` is at most the ceiling.  The ceiling
`MAX_NUM_HASH_BLOCKS` is a build constant of at least 1. -/
theorem optimizeParameters_manual_override (c : CpuImpl) (M T H : Nat) (algo : Algo) (p : Int)
    (hM : 1 ≤ M) (hT : 0 < T) (hH : 0 < H) :
    c.optimizeParameters M T H algo p false = Except.ok (T, min H M) ∧
      (H ≤ M → c.optimizeParameters M T H algo p false = Except.ok (T, H)) := by
  have hmin : 0 < min H M := by omega
  have h := optimizeParameters_manual c M T H algo p hT hmin
  refine ⟨h, ?_⟩
  intro hle
  rw [h, Nat.min_eq_left hle]

/-- The manual override of C3 on the 8-thread machine under ceiling 4: the request (16, 3)
is returned as it is, and the request (16, 9) is returned with the hash factor cut to 4. -/
theorem optimizeParameters_manual_override_witness :
    1 ≤ 4 ∧ 0 < 16 ∧ 0 < 3 ∧ 3 ≤ 4 ∧ 0 < 9 ∧
      machineA.optimizeParameters 4 16 3 Algo.ALGO_CRYPTONIGHT_LITE 50 false
        = Except.ok (16, 3) ∧
      machineA.optimizeParameters 4 16 9 Algo.ALGO_CRYPTONIGHT_LITE 50 false
        = Except.ok (16, 4) := by
  have h3 := (optimizeParameters_manual_override machineA 4 16 3 Algo.ALGO_CRYPTONIGHT_LITE 50
    (by decide) (by decide) (by decide)).2 (by decide)
  have h9 := (optimizeParameters_manual_override machineA 4 16 9 Algo.ALGO_CRYPTONIGHT_LITE 50
    (by decide) (by decide) (by decide)).1
  have e : min 9 4 = 4 := by decide
  rw [e] at h9
  exact ⟨by decide, by decide, by decide, by decide, by decide, h3, h9⟩

/-- C4 (the code falls short of it): in every mode the returned hash factor is to be at most
the ceiling.  For the request (threads 0, hash factor 9, safe mode on) under ceiling 4 the
routine divides by zero in the safe-mode clamp and returns no hash factor at all. -/
theorem optimizeParameters_no_hashFactor_safe_auto :
    machineA.optimizeParameters 4 0 9 Algo.ALGO_CRYPTONIGHT 100 true
        = Except.error DivSite.safeModeClamp ∧
      ¬ ∃ r : Nat × Nat,
          machineA.optimizeParameters 4 0 9 Algo.ALGO_CRYPTONIGHT 100 true = Except.ok r ∧
            r.2 ≤ 4 := by
  have h := optimizeParameters_safe_autoThreads machineA 4 9 Algo.ALGO_CRYPTONIGHT 100
  refine ⟨h, ?_⟩
  rintro ⟨r, hr, _⟩
  rw [h] at hr
  cases hr

/-- C5 as stated fails for a manual override: on the 4-thread machine with 4096 units of
cache the request (threads 4, hash factor 2, safe mode off) is returned unchanged, and
`4 * 2 * 2048` exceeds `4096 + 4 * 2048`. -/
theorem cache_budget_fails_for_manual_override :
    machineB.optimizeParameters 4 4 2 Algo.ALGO_CRYPTONIGHT 100 false = Except.ok (4, 2) ∧
      ¬ (4 * 2 * algoBlockSize Algo.ALGO_CRYPTONIGHT
          ≤ machineB.availableCache + 4 * algoBlockSize Algo.ALGO_CRYPTONIGHT) := by
  decide

/-- C5 (amended): with at least one logical thread, the result `(t, h)` satisfies
`t * h * blockSize ≤ availableCache + t * blockSize` for every request of safe mode with
explicit threads, and, safe mode off, for every request whose ceiling-clamped hash factor
is 0 (automatic) or, with automatic threads, at most `availableCache / blockSize + 1`. -/
theorem optimizeParameters_cache_budget (c : CpuImpl) (M T H : Nat) (algo : Algo) (p : Int)
    (safe : Bool) (htot : 1 ≤ c.m_totalThreads)
    (hdom : (safe = true ∧ 0 < T) ∨ (safe = false ∧ min H M = 0) ∨
      (safe = false ∧ T = 0 ∧ min H M ≤ c.availableCache / algoBlockSize algo + 1)) :
    ∃ t h, c.optimizeParameters M T H algo p safe = Except.ok (t, h) ∧
      t * h * algoBlockSize algo ≤ c.availableCache + t * algoBlockSize algo := by
  have hF : c.maximumReasonableFactor algo = max (c.availableCache / algoBlockSize algo) 1 := rfl
  have hFpos := maximumReasonableFactor_pos c algo
  have hmt := maximumReasonableThreadCount_pos c algo htot
  have hmtF : c.maximumReasonableThreadCount algo ≤ c.maximumReasonableFactor algo := by
    unfold CpuImpl.maximumReasonableThreadCount
    omega
  rcases hdom with ⟨hs, hT⟩ | ⟨hs, hH⟩ | ⟨hs, hT, hH⟩
  · subst hs
    refine ⟨_, _, optimizeParameters_safe_explicit c M T H algo p htot hT _ rfl, ?_⟩
    apply budget_of_hash_le _ _ _ _ _ hF
    have hq : 1 ≤ c.maximumReasonableFactor algo / min T (c.maximumReasonableThreadCount algo) :=
      (Nat.one_le_div_iff (by omega)).mpr (by omega)
    split_ifs <;> omega
  · subst hs
    rcases Nat.eq_zero_or_pos T with hT | hT
    · subst hT
      refine ⟨_, _, optimizeParameters_unsafe_autoThreads c M H algo p _ rfl, ?_⟩
      apply budget_of_hash_le _ _ _ _ _ hF
      rw [if_pos hH]
      omega
    · refine ⟨_, _, optimizeParameters_unsafe_autoHash c M T H algo p hT hH, ?_⟩
      apply budget_of_hash_le _ _ _ _ _ hF
      omega
  · subst hs
    subst hT
    rcases Nat.eq_zero_or_pos (min H M) with h0 | hpos
    · refine ⟨_, _, optimizeParameters_unsafe_autoThreads c M H algo p _ rfl, ?_⟩
      apply budget_of_hash_le _ _ _ _ _ hF
      rw [if_pos h0]
      omega
    · have hne : min H M ≠ 0 := by omega
      obtain ⟨t, ht⟩ : ∃ t, t = max (if p < 100 then
          min (if min H M = 0 then c.maximumReasonableThreadCount algo
               else min (c.maximumReasonableThreadCount algo)
                      (c.maximumReasonableFactor algo / min H M))
            ((c.m_totalThreads * toSizeT p) % 18446744073709551616 / 100)
        else (if min H M = 0 then c.maximumReasonableThreadCount algo
              else min (c.maximumReasonableThreadCount algo)
                     (c.maximumReasonableFactor algo / min H M))) 1 := ⟨_, rfl⟩
      refine ⟨t, _, optimizeParameters_unsafe_autoThreads c M H algo p t ht, ?_⟩
      rw [if_neg hne]
      by_cases hle : min H M ≤ c.maximumReasonableFactor algo
      · -- the requested blocks per thread fit: at most `F / H` threads are chosen
        have hq : 1 ≤ c.maximumReasonableFactor algo / min H M :=
          (Nat.one_le_div_iff hpos).mpr hle
        have htq : t ≤ c.maximumReasonableFactor algo / min H M := by
          rw [ht, if_neg hne]
          split_ifs <;> omega
        have h1 : t * min H M ≤ c.maximumReasonableFactor algo :=
          le_trans (Nat.mul_le_mul_right _ htq) (Nat.div_mul_le_self _ _)
        have ht1 : 1 ≤ t := by omega
        apply budget_of_hash_le _ _ _ _ _ hF
        right
        exact (Nat.le_div_iff_mul_le ht1).mpr (by rw [Nat.mul_comm]; exact h1)
      · -- one thread holds one block more than the cache has
        have hq0 : c.maximumReasonableFactor algo / min H M = 0 :=
          Nat.div_eq_of_lt (by omega)
        have ht1 : t = 1 := by
          rw [ht, if_neg hne, hq0]
          split_ifs <;> omega
        rw [ht1, Nat.one_mul, Nat.one_mul]
        have h2 := Nat.mul_le_mul_right (algoBlockSize algo) hH
        have h3 := Nat.div_mul_le_self c.availableCache (algoBlockSize algo)
        rw [Nat.add_mul, Nat.one_mul] at h2
        omega

/-- The cache budget of C5 on the 4-thread machine: safe mode, request (4, 2). -/
theorem optimizeParameters_cache_budget_witness :
    1 ≤ machineB.m_totalThreads ∧
      ((true = true ∧ 0 < 4) ∨ (true = false ∧ min 2 4 = 0) ∨
        (true = false ∧ 4 = 0 ∧
          min 2 4 ≤ machineB.availableCache / algoBlockSize Algo.ALGO_CRYPTONIGHT + 1)) ∧
      ∃ t h, machineB.optimizeParameters 4 4 2 Algo.ALGO_CRYPTONIGHT 100 true
          = Except.ok (t, h) ∧
        t * h * algoBlockSize Algo.ALGO_CRYPTONIGHT
          ≤ machineB.availableCache + t * algoBlockSize Algo.ALGO_CRYPTONIGHT :=
  ⟨by decide, by decide,
    optimizeParameters_cache_budget machineB 4 4 2 Algo.ALGO_CRYPTONIGHT 100 true
      (by decide) (by decide)⟩

/-- C6 as stated fails for explicit threads with an automatic hash factor and safe mode
off, a request that does not take the manual-override return: on the 8-thread machine the
request (threads 16, hash factor 0) keeps its 16 threads. -/
theorem threads_exceed_total_for_explicit_threads :
    machineA.optimizeParameters 4 16 0 Algo.ALGO_CRYPTONIGHT 100 false = Except.ok (16, 4) ∧
      ¬ (16 ≤ machineA.m_totalThreads) := by
  decide

/-- C6 (amended): with at least one logical thread, the returned thread count is at most
`totalLogicalThreads` for every request of safe mode with explicit threads and for every
request with automatic threads and safe mode off. -/
theorem optimizeParameters_threads_le_total (c : CpuImpl) (M T H : Nat) (algo : Algo) (p : Int)
    (safe : Bool) (htot : 1 ≤ c.m_totalThreads)
    (hdom : (safe = true ∧ 0 < T) ∨ (safe = false ∧ T = 0)) :
    ∃ t h, c.optimizeParameters M T H algo p safe = Except.ok (t, h) ∧
      t ≤ c.m_totalThreads := by
  rcases hdom with ⟨hs, hT⟩ | ⟨hs, hT⟩
  · subst hs
    exact optimizeParameters_safe_le_total c M T H algo p htot hT
  · subst hs
    subst hT
    exact optimizeParameters_autoThreads_le_total c M H algo p htot

/-- The thread bound of C6 on the 8-thread machine: safe mode, 16 threads requested. -/
theorem optimizeParameters_threads_le_total_witness :
    1 ≤ machineA.m_totalThreads ∧ ((true = true ∧ 0 < 16) ∨ (true = false ∧ 16 = 0)) ∧
      ∃ t h, machineA.optimizeParameters 4 16 0 Algo.ALGO_CRYPTONIGHT 100 true
          = Except.ok (t, h) ∧ t ≤ machineA.m_totalThreads :=
  ⟨by decide, by decide,
    optimizeParameters_threads_le_total machineA 4 16 0 Algo.ALGO_CRYPTONIGHT 100 true
      (by decide) (by decide)⟩

/-- C7 (the code falls short of it): every request with automatic threads is to get at most
`totalLogicalThreads` threads.  With safe mode on, the request (threads 0, hash factor 2,
50 %) divides by zero in the safe-mode clamp before the automatic thread count is computed,
and no thread count is returned. -/
theorem optimizeParameters_no_threads_safe_auto :
    machineB.optimizeParameters 4 0 2 Algo.ALGO_CRYPTONIGHT_LITE 50 true
        = Except.error DivSite.safeModeClamp ∧
      ¬ ∃ r : Nat × Nat,
          machineB.optimizeParameters 4 0 2 Algo.ALGO_CRYPTONIGHT_LITE 50 true = Except.ok r ∧
            r.1 ≤ machineB.m_totalThreads := by
  have h := optimizeParameters_safe_autoThreads machineB 4 2 Algo.ALGO_CRYPTONIGHT_LITE 50
  refine ⟨h, ?_⟩
  rintro ⟨r, hr, _⟩
  rw [h] at hr
  cases hr

/-- C8 as stated fails because the automatic thread count is floored at 1 after the usage
cap: on the 8-thread machine at 10 % the cap is `8 * 10 / 100 = 0`, and 1 thread is
returned. -/
theorem usage_cap_exceeded_by_floor :
    machineA.optimizeParameters 4 0 0 Algo.ALGO_CRYPTONIGHT 10 false = Except.ok (1, 4) ∧
      ¬ (1 ≤ machineA.m_totalThreads * 10 / 100) := by
  decide

/-- C8 (amended): with safe mode off, automatic threads and a usage limit `p` in `[1, 99]`,
the returned thread count is at most `max (totalLogicalThreads * p / 100) 1`, with the
product taken in `size_t` as the source does and also with the plain product; so it is at
most `totalLogicalThreads * p / 100` whenever that quotient is at least 1. -/
theorem optimizeParameters_usage_cap (c : CpuImpl) (M H : Nat) (algo : Algo) (p : Nat)
    (hp1 : 1 ≤ p) (hp2 : p ≤ 99) :
    ∃ t h, c.optimizeParameters M 0 H algo (p : Int) false = Except.ok (t, h) ∧
      t ≤ max ((c.m_totalThreads * p) % 18446744073709551616 / 100) 1 ∧
      t ≤ max (c.m_totalThreads * p / 100) 1 ∧
      (1 ≤ c.m_totalThreads * p / 100 → t ≤ c.m_totalThreads * p / 100) := by
  have hconv : toSizeT (p : Int) = p := by
    unfold toSizeT
    omega
  have hlt : (p : Int) < 100 := by omega
  have hmod : (c.m_totalThreads * p) % 18446744073709551616 / 100
      ≤ c.m_totalThreads * p / 100 :=
    Nat.div_le_div_right (Nat.mod_le _ _)
  refine ⟨_, _, optimizeParameters_unsafe_autoThreads c M H algo (p : Int) _ rfl, ?_, ?_, ?_⟩
  · rw [if_pos hlt, hconv]
    omega
  · rw [if_pos hlt, hconv]
    omega
  · intro hq
    rw [if_pos hlt, hconv]
    omega

/-- The usage cap of C8 on the 8-thread machine at 50 %. -/
theorem optimizeParameters_usage_cap_witness :
    1 ≤ 50 ∧ 50 ≤ 99 ∧
      ∃ t h, machineA.optimizeParameters 4 0 0 Algo.ALGO_CRYPTONIGHT ((50 : Nat) : Int) false
          = Except.ok (t, h) ∧
        t ≤ max ((machineA.m_totalThreads * 50) % 18446744073709551616 / 100) 1 ∧
        t ≤ max (machineA.m_totalThreads * 50 / 100) 1 ∧
        (1 ≤ machineA.m_totalThreads * 50 / 100 → t ≤ machineA.m_totalThreads * 50 / 100) :=
  ⟨by decide, by decide,
    optimizeParameters_usage_cap machineA 4 0 Algo.ALGO_CRYPTONIGHT 50 (by decide) (by decide)⟩

/-- C9: `availableCache()` is `l2` when there is no L3, `l3` when there is an L3 and the
levels are not exclusive, and the `size_t` sum `l2 + l3` when there is an L3 and they are
exclusive; that sum is the plain sum whenever it fits the 64-bit word. -/
theorem availableCache_cases (c : CpuImpl) :
    (c.m_l3_cache = 0 → c.availableCache = c.m_l2_cache) ∧
    (0 < c.m_l3_cache → c.m_l2_exclusive = false → c.availableCache = c.m_l3_cache) ∧
    (0 < c.m_l3_cache → c.m_l2_exclusive = true →
      c.availableCache = (c.m_l2_cache + c.m_l3_cache) % 18446744073709551616) ∧
    (0 < c.m_l3_cache → c.m_l2_exclusive = true →
      c.m_l2_cache + c.m_l3_cache < 18446744073709551616 →
      c.availableCache = c.m_l2_cache + c.m_l3_cache) := by
  refine ⟨?_, ?_, ?_, ?_⟩
  · intro h3
    simp [CpuImpl.availableCache, h3]
  · intro h3 hx
    have : c.m_l3_cache ≠ 0 := by omega
    simp [CpuImpl.availableCache, this, hx]
  · intro h3 hx
    have : c.m_l3_cache ≠ 0 := by omega
    simp [CpuImpl.availableCache, this, hx]
  · intro h3 hx hfit
    have : c.m_l3_cache ≠ 0 := by omega
    simp [CpuImpl.availableCache, this, hx, Nat.mod_eq_of_lt hfit]

/-- The three cases of C9 on the 4-thread machine: no L3, inclusive L3, exclusive L3. -/
theorem availableCache_cases_witness :
    ({ machineB with m_l3_cache := 0 }.availableCache = 1024) ∧
    (machineB.availableCache = 4096) ∧
    ({ machineB with m_l2_exclusive := true }.availableCache = 5120) := by
  have h0 := (availableCache_cases { machineB with m_l3_cache := 0 }).1 rfl
  have h1 := (availableCache_cases machineB).2.1 (by decide) rfl
  have h2 := (availableCache_cases { machineB with m_l2_exclusive := true }).2.2.2
    (by decide) rfl (by decide)
  exact ⟨h0, h1, h2⟩

/-- C10: for a probe record whose per-socket logical-thread count is nonzero, `initCommon`
on a freshly constructed object returns, with `totalCores = coresPerSocket * socketCount`,
`l3 = perSocketL3 * socketCount` if `perSocketL3 > 0` and `0` otherwise; it sets
`l2 = perCoreL2 * (totalCores / 2) * socketCount` and `l2Exclusive = true` exactly when the
vendor is AMD and `0x15 ≤ extendedFamily < 0x17`, and otherwise sets
`l2 = perCoreL2 * totalCores * socketCount` if `perCoreL2 > 0`, `0` if not, leaving
`l2Exclusive = false`; `socketCount` is `max (totalLogicalThreads / perSocketThreads) 1`.
The products are the `size_t` products of the source. -/
theorem initCommon_cache_aggregation (data : cpu_id_t)
    (hlo : -2147483648 ≤ data.num_logical_cpus) (hhi : data.num_logical_cpus ≤ 2147483647)
    (hne : data.num_logical_cpus ≠ 0) :
    ∃ cpu, CpuImpl.fresh.initCommon data = Except.ok cpu ∧
      cpu.m_totalThreads = toSizeT data.total_logical_cpus ∧
      cpu.m_sockets
        = max (toSizeT data.total_logical_cpus / toSizeT data.num_logical_cpus) 1 ∧
      cpu.m_totalCores = (toSizeT data.num_cores * cpu.m_sockets) % 18446744073709551616 ∧
      cpu.m_l3_cache =
        (if data.l3_cache > 0 then
          (toSizeT data.l3_cache * cpu.m_sockets) % 18446744073709551616 else 0) ∧
      (cpu.m_l2_exclusive = true ↔
        (data.vendor = cpu_vendor_t.VENDOR_AMD ∧ 0x15 ≤ data.ext_family ∧
          data.ext_family < 0x17)) ∧
      ((data.vendor = cpu_vendor_t.VENDOR_AMD ∧ 0x15 ≤ data.ext_family ∧
          data.ext_family < 0x17) →
        cpu.m_l2_cache =
          ((toSizeT data.l2_cache * (cpu.m_totalCores / 2)) % 18446744073709551616
            * cpu.m_sockets) % 18446744073709551616) ∧
      (¬ (data.vendor = cpu_vendor_t.VENDOR_AMD ∧ 0x15 ≤ data.ext_family ∧
          data.ext_family < 0x17) →
        cpu.m_l2_exclusive = false ∧
        cpu.m_l2_cache =
          (if data.l2_cache > 0 then
            ((toSizeT data.l2_cache * cpu.m_totalCores) % 18446744073709551616
              * cpu.m_sockets) % 18446744073709551616
          else 0)) := by
  have hdiv : toSizeT data.num_logical_cpus ≠ 0 := by
    unfold toSizeT
    omega
  have hsock : ∀ q : Nat, (if q = 0 then 1 else q) = max q 1 := by
    intro q
    split <;> omega
  by_cases hamd : data.vendor = cpu_vendor_t.VENDOR_AMD ∧ data.ext_family ≥ 0x15 ∧
      data.ext_family < 0x17
  · simp only [CpuImpl.initCommon, udiv, if_neg hdiv, if_pos hamd]
    exact ⟨_, rfl, rfl, hsock _, rfl, rfl, ⟨fun _ => hamd, fun _ => rfl⟩, fun _ => rfl,
      fun hn => absurd hamd hn⟩
  · simp only [CpuImpl.initCommon, udiv, if_neg hdiv, if_neg hamd]
    refine ⟨_, rfl, rfl, hsock _, rfl, rfl, ⟨fun h => ?_, fun h => absurd h hamd⟩,
      fun h => absurd h hamd, fun _ => ⟨rfl, rfl⟩⟩
    simp [CpuImpl.fresh] at h

/-- Scenario D of C10: an AMD family 15h record with 4 cores, 512 of L2 per core and 2048
of L3 gives `l2 = 1024`, `l2Exclusive = true` and `availableCache() = 3072`. -/
theorem initCommon_cache_aggregation_witness :
    (-2147483648 ≤ scenarioD.num_logical_cpus ∧ scenarioD.num_logical_cpus ≤ 2147483647 ∧
      scenarioD.num_logical_cpus ≠ 0) ∧
    (∃ cpu, CpuImpl.fresh.initCommon scenarioD = Except.ok cpu ∧
      cpu.m_l2_cache = 1024 ∧ cpu.m_l2_exclusive = true ∧ cpu.m_l3_cache = 2048 ∧
      cpu.availableCache = 3072) := by
  refine ⟨by decide, ?_⟩
  obtain ⟨cpu, hcpu, -, -, -, -, hx, -, -⟩ :=
    initCommon_cache_aggregation scenarioD (by decide) (by decide) (by decide)
  have hval : CpuImpl.fresh.initCommon scenarioD = Except.ok
      { m_l2_exclusive := true, m_l2_cache := 1024, m_l3_cache := 2048,
        m_sockets := 1, m_totalCores := 4, m_totalThreads := 4 } := by decide
  rw [hval] at hcpu
  cases hcpu
  exact ⟨_, hval, rfl, hx.mpr (by decide), rfl, by decide⟩

/-- C11 (the code falls short of it): the probe is to complete without a division fault
and to leave `socketCount ≥ 1`, `totalCores ≥ 1`, `totalLogicalThreads ≥ 1` on every record.
On the all-zero record line 146 divides `m_totalThreads` by `num_logical_cpus = 0` and the
probe faults; on a record with one logical thread per socket and zero counts it completes
with `socketCount = 1` but `totalCores = 0` and `totalLogicalThreads = 0`. -/
theorem initCommon_misses_safe_floors :
    CpuImpl.fresh.initCommon zeroRecord = Except.error DivSite.socketCount ∧
      (¬ ∃ cpu, CpuImpl.fresh.initCommon zeroRecord = Except.ok cpu ∧
          1 ≤ cpu.m_sockets ∧ 1 ≤ cpu.m_totalCores ∧ 1 ≤ cpu.m_totalThreads) ∧
      CpuImpl.fresh.initCommon coreLessRecord = Except.ok
        { m_l2_exclusive := false, m_l2_cache := 0, m_l3_cache := 0,
          m_sockets := 1, m_totalCores := 0, m_totalThreads := 0 } := by
  have h : CpuImpl.fresh.initCommon zeroRecord = Except.error DivSite.socketCount := by
    decide
  refine ⟨h, ?_, by decide⟩
  rintro ⟨cpu, hcpu, _⟩
  rw [h] at hcpu
  cases hcpu

/-- C12: with safe mode off and no thread count requested, the routine returns exactly the
pair of the reference definition: `threads = max capped 1` and `hashFactor` the clamped
request if that is positive, `max (min maxHashFactor (maxFactor / threads)) 1` if not.  The
product of the usage cap is the `size_t` product, which is the plain product
`totalLogicalThreads * maxCpuUsagePercent` whenever that is below `2 ^ 64`. -/
theorem optimizeParameters_auto_thread_path (c : CpuImpl) (M H : Nat) (algo : Algo) (p : Nat) :
    c.optimizeParameters M 0 H algo (p : Int) false
        = Except.ok (specAutoThreadPath c.availableCache (algoBlockSize algo)
            c.m_totalThreads M H p) ∧
      (c.m_totalThreads * p < 18446744073709551616 →
        (c.m_totalThreads * p) % 18446744073709551616 / 100 = c.m_totalThreads * p / 100) := by
  refine ⟨?_, fun h => by rw [Nat.mod_eq_of_lt h]⟩
  rw [optimizeParameters_unsafe_autoThreads c M H algo (p : Int) _ rfl]
  simp only [specAutoThreadPath, CpuImpl.maximumReasonableHashFactor,
    CpuImpl.maximumReasonableThreadCount, CpuImpl.maximumReasonableFactor]
  by_cases hp : p < 100
  · have hpi : (p : Int) < 100 := by omega
    have hge : ¬ p ≥ 100 := by omega
    have hconv : toSizeT (p : Int) = p := by
      unfold toSizeT
      omega
    simp only [if_pos hpi, if_neg hge, hconv]
    by_cases h0 : min H M = 0
    · have hn : ¬ min H M > 0 := by omega
      simp only [if_pos h0, if_neg hn]
    · have hpos : min H M > 0 := by omega
      simp only [if_neg h0, if_pos hpos]
  · have hpi : ¬ (p : Int) < 100 := by omega
    have hge : p ≥ 100 := by omega
    simp only [if_neg hpi, if_pos hge]
    by_cases h0 : min H M = 0
    · have hn : ¬ min H M > 0 := by omega
      simp only [if_pos h0, if_neg hn]
    · have hpos : min H M > 0 := by omega
      simp only [if_neg h0, if_pos hpos]

/-- Scenarios A and B of C12 on the 8-thread machine with 8388608 units of cache, standard
blocks and ceiling 4: the request (0, 0, 100 %) gives (8, 4), the request (0, 0, 50 %)
gives (4, 4). -/
theorem optimizeParameters_auto_thread_path_witness :
    machineA.optimizeParameters 4 0 0 Algo.ALGO_CRYPTONIGHT ((100 : Nat) : Int) false
        = Except.ok (8, 4) ∧
      machineA.optimizeParameters 4 0 0 Algo.ALGO_CRYPTONIGHT ((50 : Nat) : Int) false
        = Except.ok (4, 4) ∧
      (machineA.m_totalThreads * 50) % 18446744073709551616 / 100
        = machineA.m_totalThreads * 50 / 100 := by
  have hA := (optimizeParameters_auto_thread_path machineA 4 0 Algo.ALGO_CRYPTONIGHT 100).1
  have hB := optimizeParameters_auto_thread_path machineA 4 0 Algo.ALGO_CRYPTONIGHT 50
  have eA : specAutoThreadPath machineA.availableCache (algoBlockSize Algo.ALGO_CRYPTONIGHT)
      machineA.m_totalThreads 4 0 100 = (8, 4) := by decide
  have eB : specAutoThreadPath machineA.availableCache (algoBlockSize Algo.ALGO_CRYPTONIGHT)
      machineA.m_totalThreads 4 0 50 = (4, 4) := by decide
  rw [eA] at hA
  exact ⟨hA, eB ▸ hB.1, hB.2 (by decide)⟩

/-- C13 (the code falls short of it): on a topology without usable cache every request with
automatic threads and hash factor is to return `(1, 1)`, safe mode on or off.  With safe
mode on the request (0, 0, 100 %) divides by zero in the safe-mode clamp and returns
nothing. -/
theorem optimizeParameters_zero_cache_safe_mode_faults :
    machineZeroCache.availableCache = 0 ∧
      machineZeroCache.optimizeParameters 4 0 0 Algo.ALGO_CRYPTONIGHT 100 true
        = Except.error DivSite.safeModeClamp ∧
      machineZeroCache.optimizeParameters 4 0 0 Algo.ALGO_CRYPTONIGHT 100 true
        ≠ Except.ok (1, 1) := by
  have h := optimizeParameters_safe_autoThreads machineZeroCache 4 0 Algo.ALGO_CRYPTONIGHT 100
  refine ⟨by decide, h, ?_⟩
  rw [h]
  intro hcon
  cases hcon

/-- C14: with at least one logical thread and an explicit thread count `T > 0`, safe mode
on or off and any requested hash factor, the routine returns, and the pair it returns is the
same for every usage limit. -/
theorem optimizeParameters_usage_limit_irrelevant (c : CpuImpl) (M T H : Nat) (algo : Algo)
    (safe : Bool) (htot : 1 ≤ c.m_totalThreads) (hT : 0 < T) :
    ∃ r : Nat × Nat, ∀ p : Int, c.optimizeParameters M T H algo p safe = Except.ok r := by
  cases safe with
  | true =>
    exact ⟨_, fun p => optimizeParameters_safe_explicit c M T H algo p htot hT _ rfl⟩
  | false =>
    rcases Nat.eq_zero_or_pos (min H M) with hH | hH
    · exact ⟨_, fun p => optimizeParameters_unsafe_autoHash c M T H algo p hT hH⟩
    · exact ⟨_, fun p => optimizeParameters_manual c M T H algo p hT hH⟩

/-- The usage limit of C14 on the 8-thread machine: safe mode, request (16, 0), at 1 % and
at 100 %. -/
theorem optimizeParameters_usage_limit_irrelevant_witness :
    1 ≤ machineA.m_totalThreads ∧ 0 < 16 ∧
      machineA.optimizeParameters 4 16 0 Algo.ALGO_CRYPTONIGHT 1 true
        = machineA.optimizeParameters 4 16 0 Algo.ALGO_CRYPTONIGHT 100 true := by
  obtain ⟨r, hr⟩ := optimizeParameters_usage_limit_irrelevant machineA 4 16 0
    Algo.ALGO_CRYPTONIGHT true (by decide) (by decide)
  exact ⟨by decide, by decide, by rw [hr 1, hr 100]⟩

/-- C15: with at least one logical thread, safe mode on and `T > 0` requested threads, the
routine returns exactly the pair of the reference definition: `threads = min T maxThreads`,
and `hashFactor = max (min (maxFactor / threads) maxHashFactor) 1` if the clamped request is
0 or exceeds `maxFactor / threads`, the clamped request otherwise; the quotient is taken
with the clamped thread count. -/
theorem optimizeParameters_safe_mode_clamp (c : CpuImpl) (M T H : Nat) (algo : Algo) (p : Int)
    (htot : 1 ≤ c.m_totalThreads) (hT : 0 < T) :
    c.optimizeParameters M T H algo p true
      = Except.ok (specSafeModeClamp c.availableCache (algoBlockSize algo)
          c.m_totalThreads M T H) := by
  rw [optimizeParameters_safe_explicit c M T H algo p htot hT _ rfl]
  rfl

/-- The clamp of C15 on the 8-thread machine: the request (4096, 4) under ceiling 4 gives
(8, 4); the quotient `4096 / 8 = 512` of the clamped thread count leaves the hash factor,
where `4096 / 4096 = 1` would have lowered it. -/
theorem optimizeParameters_safe_mode_clamp_witness :
    1 ≤ machineA.m_totalThreads ∧ 0 < 4096 ∧
      machineA.optimizeParameters 4 4096 4 Algo.ALGO_CRYPTONIGHT 100 true
        = Except.ok (8, 4) := by
  have h := optimizeParameters_safe_mode_clamp machineA 4 4096 4 Algo.ALGO_CRYPTONIGHT 100
    (by decide) (by decide)
  have e : specSafeModeClamp machineA.availableCache (algoBlockSize Algo.ALGO_CRYPTONIGHT)
      machineA.m_totalThreads 4 4096 4 = (8, 4) := by decide
  rw [e] at h
  exact ⟨by decide, by decide, h⟩

/-- C16: with safe mode off, `T > 0` requested threads and a requested hash factor of 0, the
routine returns `threads = T` unchanged and
`hashFactor = max (min (min maxFactor ceiling) (maxFactor / T)) 1`, where
`maxFactor = max (availableCache / blockSize) 1`. -/
theorem optimizeParameters_auto_hash_factor (c : CpuImpl) (M T : Nat) (algo : Algo) (p : Int)
    (hT : 0 < T) :
    c.optimizeParameters M T 0 algo p false
      = Except.ok (T,
          max (min (min (max (c.availableCache / algoBlockSize algo) 1) M)
            (max (c.availableCache / algoBlockSize algo) 1 / T)) 1) := by
  rw [optimizeParameters_unsafe_autoHash c M T 0 algo p hT (by omega)]
  rfl

/-- The automatic hash factor of C16 on the 8-thread machine: 16 threads stay, and the hash
factor is `min 4 (4096 / 16) = 4`. -/
theorem optimizeParameters_auto_hash_factor_witness :
    0 < 16 ∧
      machineA.optimizeParameters 4 16 0 Algo.ALGO_CRYPTONIGHT 100 false = Except.ok (16, 4) := by
  have h := optimizeParameters_auto_hash_factor machineA 4 16 Algo.ALGO_CRYPTONIGHT 100
    (by decide)
  have e : max (min (min (max (machineA.availableCache
      / algoBlockSize Algo.ALGO_CRYPTONIGHT) 1) 4)
      (max (machineA.availableCache / algoBlockSize Algo.ALGO_CRYPTONIGHT) 1 / 16)) 1 = 4 := by
    decide
  rw [e] at h
  exact ⟨by decide, h⟩

/-- C17: with at least one logical thread, safe mode on and `T > 0` requested threads
(any requested hash factor, 0 included), the result `(t, h)` satisfies
`t * h ≤ max (availableCache / blockSize) 1`; hence `t * h * blockSize ≤ availableCache`
whenever `availableCache ≥ blockSize`. -/
theorem optimizeParameters_safe_block_budget (c : CpuImpl) (M T H : Nat) (algo : Algo) (p : Int)
    (htot : 1 ≤ c.m_totalThreads) (hT : 0 < T) :
    ∃ t h, c.optimizeParameters M T H algo p true = Except.ok (t, h) ∧
      t * h ≤ max (c.availableCache / algoBlockSize algo) 1 ∧
      (algoBlockSize algo ≤ c.availableCache →
        t * h * algoBlockSize algo ≤ c.availableCache) := by
  obtain ⟨t, h, hres, -, -, -, hle, -, -⟩ :=
    optimizeParameters_safe_bounds c M T H algo p htot hT
  have hth : t * h ≤ max (c.availableCache / algoBlockSize algo) 1 :=
    le_trans (Nat.mul_le_mul_left t hle) (Nat.mul_div_le _ t)
  refine ⟨t, h, hres, hth, ?_⟩
  intro hbs
  have hq : 1 ≤ c.availableCache / algoBlockSize algo :=
    (Nat.one_le_div_iff (algoBlockSize_pos algo)).mpr hbs
  have hmax : max (c.availableCache / algoBlockSize algo) 1
      = c.availableCache / algoBlockSize algo := by omega
  rw [hmax] at hth
  exact le_trans (Nat.mul_le_mul_right _ hth) (Nat.div_mul_le_self _ _)

/-- The block budget of C17 on the 4-thread machine with 2 blocks of cache: the request
(4, 2) in safe mode is answered within 2 blocks. -/
theorem optimizeParameters_safe_block_budget_witness :
    1 ≤ machineB.m_totalThreads ∧ 0 < 4 ∧
      machineB.optimizeParameters 4 4 2 Algo.ALGO_CRYPTONIGHT 100 true = Except.ok (2, 1) ∧
      ∃ t h, machineB.optimizeParameters 4 4 2 Algo.ALGO_CRYPTONIGHT 100 true
          = Except.ok (t, h) ∧
        t * h ≤ max (machineB.availableCache / algoBlockSize Algo.ALGO_CRYPTONIGHT) 1 ∧
        (algoBlockSize Algo.ALGO_CRYPTONIGHT ≤ machineB.availableCache →
          t * h * algoBlockSize Algo.ALGO_CRYPTONIGHT ≤ machineB.availableCache) :=
  ⟨by decide, by decide, by decide,
    optimizeParameters_safe_block_budget machineB 4 4 2 Algo.ALGO_CRYPTONIGHT 100
      (by decide) (by decide)⟩

/-- C18: with at least one logical thread, a ceiling of at least 1, safe mode on and
explicit values `T > 0` and `H > 0`, the result `(t, h)` satisfies `t ≤ T` and `h ≤ H`. -/
theorem optimizeParameters_safe_only_lowers (c : CpuImpl) (M T H : Nat) (algo : Algo) (p : Int)
    (htot : 1 ≤ c.m_totalThreads) (hM : 1 ≤ M) (hT : 0 < T) (hH : 0 < H) :
    ∃ t h, c.optimizeParameters M T H algo p true = Except.ok (t, h) ∧ t ≤ T ∧ h ≤ H := by
  obtain ⟨t, h, hres, ht, -, -, -, -, hlow⟩ :=
    optimizeParameters_safe_bounds c M T H algo p htot hT
  exact ⟨t, h, hres, by omega, hlow hM hH⟩

/-- The lowering of C18 on the 4-thread machine: the request (4, 2) becomes (2, 1). -/
theorem optimizeParameters_safe_only_lowers_witness :
    1 ≤ machineB.m_totalThreads ∧ 1 ≤ 4 ∧ 0 < 4 ∧ 0 < 2 ∧
      ∃ t h, machineB.optimizeParameters 4 4 2 Algo.ALGO_CRYPTONIGHT 100 true
          = Except.ok (t, h) ∧ t ≤ 4 ∧ h ≤ 2 :=
  ⟨by decide, by decide, by decide, by decide,
    optimizeParameters_safe_only_lowers machineB 4 4 2 Algo.ALGO_CRYPTONIGHT 100
      (by decide) (by decide) (by decide) (by decide)⟩

/-- C19: with at least one logical thread and a ceiling of at least 1, for every request
with safe mode off and for every request with `T > 0` with safe mode on, the routine
returns a pair `(t, h)`, and the request `(t, h)` under the same block size, usage limit and
mode returns `(t, h)` again. -/
theorem optimizeParameters_idempotent (c : CpuImpl) (M T H : Nat) (algo : Algo) (p : Int)
    (safe : Bool) (htot : 1 ≤ c.m_totalThreads) (hM : 1 ≤ M) (hT : safe = true → 0 < T) :
    ∃ t h, c.optimizeParameters M T H algo p safe = Except.ok (t, h) ∧
      c.optimizeParameters M t h algo p safe = Except.ok (t, h) := by
  cases safe with
  | true =>
    obtain ⟨t, h, hres, ht, ht1, hh1, hle, hhM, -⟩ :=
      optimizeParameters_safe_bounds c M T H algo p htot (hT rfl)
    refine ⟨t, h, hres, ?_⟩
    have hmin : min h M = h := by
      have := hhM hM
      omega
    have htt : t = min t (c.maximumReasonableThreadCount algo) := by omega
    rw [optimizeParameters_safe_explicit c M t h algo p htot (by omega) t htt, hmin]
    have hcond : ¬ (h = 0 ∨ h > c.maximumReasonableFactor algo / t) := by omega
    rw [if_neg hcond]
  | false =>
    obtain ⟨t, h, hres, ht1, hh1, hhM⟩ :=
      optimizeParameters_returns c M T H algo p false htot (Or.inl rfl)
    refine ⟨t, h, hres, ?_⟩
    have hmin : min h M = h := by
      have := hhM hM
      omega
    rw [optimizeParameters_manual c M t h algo p (by omega) (by omega), hmin]

/-- The idempotence of C19 on the 4-thread machine: the request (4, 2) in safe mode gives
(2, 1), and the request (2, 1) gives (2, 1). -/
theorem optimizeParameters_idempotent_witness :
    1 ≤ machineB.m_totalThreads ∧ 1 ≤ 4 ∧ (true = true → 0 < 4) ∧
      machineB.optimizeParameters 4 4 2 Algo.ALGO_CRYPTONIGHT 100 true = Except.ok (2, 1) ∧
      machineB.optimizeParameters 4 2 1 Algo.ALGO_CRYPTONIGHT 100 true = Except.ok (2, 1) ∧
      ∃ t h, machineB.optimizeParameters 4 4 2 Algo.ALGO_CRYPTONIGHT 100 true
          = Except.ok (t, h) ∧
        machineB.optimizeParameters 4 t h Algo.ALGO_CRYPTONIGHT 100 true = Except.ok (t, h) :=
  ⟨by decide, by decide, by decide, by decide, by decide,
    optimizeParameters_idempotent machineB 4 4 2 Algo.ALGO_CRYPTONIGHT 100 true
      (by decide) (by decide) (by decide)⟩

/-- C20: with safe mode off and automatic threads, for two usage limits `p1 ≤ p2` whose
product `totalLogicalThreads * p2` fits the 64-bit word (as it does for every thread count
up to `2 ^ 31 - 1`, the largest the 32-bit counter of libcpuid holds, and every limit up to
100), both requests are answered and the thread count for `p1` is at most the thread count
for `p2`. -/
theorem optimizeParameters_threads_monotone (c : CpuImpl) (M H : Nat) (algo : Algo)
    (p1 p2 : Nat) (h12 : p1 ≤ p2) (hfit : c.m_totalThreads * p2 < 18446744073709551616) :
    ∃ t1 h1 t2 h2,
      c.optimizeParameters M 0 H algo (p1 : Int) false = Except.ok (t1, h1) ∧
      c.optimizeParameters M 0 H algo (p2 : Int) false = Except.ok (t2, h2) ∧
      t1 ≤ t2 := by
  refine ⟨_, _, _, _, optimizeParameters_unsafe_autoThreads c M H algo (p1 : Int) _ rfl,
    optimizeParameters_unsafe_autoThreads c M H algo (p2 : Int) _ rfl, ?_⟩
  by_cases hp2 : p2 < 100
  · have hi1 : (p1 : Int) < 100 := by omega
    have hi2 : (p2 : Int) < 100 := by omega
    have hc1 : toSizeT (p1 : Int) = p1 := by
      unfold toSizeT
      omega
    have hc2 : toSizeT (p2 : Int) = p2 := by
      unfold toSizeT
      omega
    have hcap : (c.m_totalThreads * p1) % 18446744073709551616 / 100
        ≤ (c.m_totalThreads * p2) % 18446744073709551616 / 100 := by
      rw [Nat.mod_eq_of_lt hfit]
      exact Nat.div_le_div_right
        (le_trans (Nat.mod_le _ _) (Nat.mul_le_mul_left _ h12))
    rw [if_pos hi1, if_pos hi2, hc1, hc2]
    omega
  · have hi2 : ¬ (p2 : Int) < 100 := by omega
    rw [if_neg hi2]
    split_ifs <;> omega

/-- The monotonicity of C20 on the 8-thread machine: 4 threads at 50 %, 8 threads at
100 %. -/
theorem optimizeParameters_threads_monotone_witness :
    50 ≤ 100 ∧ machineA.m_totalThreads * 100 < 18446744073709551616 ∧
      machineA.optimizeParameters 4 0 0 Algo.ALGO_CRYPTONIGHT ((50 : Nat) : Int) false
        = Except.ok (4, 4) ∧
      machineA.optimizeParameters 4 0 0 Algo.ALGO_CRYPTONIGHT ((100 : Nat) : Int) false
        = Except.ok (8, 4) ∧
      ∃ t1 h1 t2 h2,
        machineA.optimizeParameters 4 0 0 Algo.ALGO_CRYPTONIGHT ((50 : Nat) : Int) false
          = Except.ok (t1, h1) ∧
        machineA.optimizeParameters 4 0 0 Algo.ALGO_CRYPTONIGHT ((100 : Nat) : Int) false
          = Except.ok (t2, h2) ∧
        t1 ≤ t2 :=
  ⟨by decide, by decide, by decide, by decide,
    optimizeParameters_threads_monotone machineA 4 0 Algo.ALGO_CRYPTONIGHT 50 100
      (by decide) (by decide)⟩

end XmrigCC
